import Mathlib

/-!
Shallow embedding of the calculator engine of `app/` (operations.py,
calculation.py, calculator.py, input_validators.py, exceptions.py).

Modelling conventions:
* Python `Decimal` values are embedded as exact rationals `ℚ`; the 28
  significant-digit context rounding of the `decimal` module is idealised
  away (the spec itself speaks of "exact decimal numbers").
* Decimal `//` and `%` follow the `decimal` module: integer division
  truncates the true quotient toward zero, and `%` returns the remainder
  with the sign of the dividend.
* Exceptions are embedded as `Except Err`, with one `Err` constructor per
  Python exception class that the modelled code raises.
* In-place mutation of the `Calculator` object is embedded as explicit
  state passing: each stateful method takes the state and returns the new
  state, errors returning the state unchanged exactly where the Python
  method raises before mutating.
-/

/-- Exceptions raised by the modelled code: `ValidationError` and
`OperationError` from app/exceptions.py, plus Python's built-in
`TypeError` and `ValueError` (raised by `OperationFactory`) and
`decimal.InvalidOperation` (raised by `quantize`). -/
inductive Err where
  | validationError (msg : String)
  | operationError (msg : String)
  | typeError (msg : String)
  | valueError (msg : String)
  | invalidOperation (msg : String)
deriving DecidableEq

/-- Models Python's `str(e)` on an exception: its message. -/
def Err.message : Err → String
  | .validationError m => m
  | .operationError m => m
  | .typeError m => m
  | .valueError m => m
  | .invalidOperation m => m

/-- The ten concrete `Operation` subclasses of app/operations.py. -/
inductive Op where
  | addition
  | subtraction
  | multiplication
  | division
  | power
  | root
  | modulus
  | intDivide
  | percent
  | absoluteDifference
deriving DecidableEq

/-- Models `Operation.__str__`, which returns the class `__name__`. -/
def Op.str : Op → String
  | .addition => "Addition"
  | .subtraction => "Subtraction"
  | .multiplication => "Multiplication"
  | .division => "Division"
  | .power => "Power"
  | .root => "Root"
  | .modulus => "Modulus"
  | .intDivide => "IntDivide"
  | .percent => "Percent"
  | .absoluteDifference => "AbsoluteDifference"

/-- Truncation toward zero, as used by `decimal` for `int()`, `//` and `%`. -/
def decTrunc (q : ℚ) : ℤ := if 0 ≤ q then ⌊q⌋ else ⌈q⌉

/-- Models Decimal `a // b`: the integer part of the true quotient,
truncated toward zero (the `decimal` module documents this explicitly,
in contrast to `int` floor division). -/
def decIntDiv (a b : ℚ) : ℚ := (decTrunc (a / b) : ℚ)

/-- Models Decimal `a % b`: remainder with the sign of the dividend,
`a - b * (a // b)` under truncating integer division. -/
def decMod (a b : ℚ) : ℚ := a - b * decIntDiv a b

/-- Models `Decimal(pow(float(a), float(b)))`: the float exponentiation
re-encoded as a decimal. Exact only for integer exponents; none of the
verified claims depends on its value, only on the fact that the
modelled computation returns normally. -/
def floatPow (a b : ℚ) : ℚ := if b.den = 1 then a ^ b.num else 0

/-- Models `validate_operands` of each `Operation` subclass
(app/operations.py): the base class accepts everything; Division, Power,
Root, Modulus, IntDivide and Percent override it with the checks below. -/
def Op.validate_operands (op : Op) (a b : ℚ) : Except Err Unit :=
  match op with
  | .division =>
      if b = 0 then .error (.validationError "Division by zero is not allowed") else .ok ()
  | .power =>
      if b < 0 then .error (.validationError "Negative exponents not supported") else .ok ()
  | .root =>
      if a < 0 then .error (.validationError "Cannot calculate root of negative number")
      else if b = 0 then .error (.validationError "Zero root is undefined")
      else .ok ()
  | .modulus =>
      if b = 0 then .error (.validationError "Modulus by zero is not allowed") else .ok ()
  | .intDivide =>
      if b = 0 then .error (.validationError "Divide by zero is not allowed") else .ok ()
  | .percent =>
      if b = 0 then .error (.validationError "Divide by zero is not allowed") else .ok ()
  | _ => .ok ()

/-- Models `execute` of each `Operation` subclass: every subclass first
calls `self.validate_operands(a, b)` and then returns its arithmetic
expression. -/
def Op.execute (op : Op) (a b : ℚ) : Except Err ℚ :=
  match op.validate_operands a b with
  | .error e => .error e
  | .ok _ =>
    match op with
    | .addition => .ok (a + b)
    | .subtraction => .ok (a - b)
    | .multiplication => .ok (a * b)
    | .division => .ok (a / b)
    | .power => .ok (floatPow a b)
    | .root => .ok (floatPow a (1 / b))
    | .modulus => .ok (decMod a b)
    | .intDivide => .ok (decIntDiv a b)
    | .percent => .ok (a / b * 100)
    | .absoluteDifference => .ok |a - b|

/-- Models `Calculation._raise_div_zero`. -/
def raise_div_zero : Except Err ℚ :=
  .error (.operationError "Division by zero is not allowed")

/-- Models `Calculation._raise_neg_power`. -/
def raise_neg_power : Except Err ℚ :=
  .error (.operationError "Negative exponents are not supported")

/-- Models `Calculation._raise_invalid_root`: the zero-degree check comes
before the negative-base check. -/
def raise_invalid_root (x y : ℚ) : Except Err ℚ :=
  if y = 0 then .error (.operationError "Zero root is undefined")
  else if x < 0 then .error (.operationError "Cannot calculate root of negative number")
  else .error (.operationError "Invalid root operation")

/-- Models `Calculation.calculate` (app/calculation.py): the internal
string-keyed table of the ten rules, including the misspelled
"IntegerDivison" key, with unknown names rejected. The modelled exact
arithmetic never raises the `InvalidOperation`/`ValueError`/
`ArithmeticError` exceptions that the Python wrapper re-wraps. -/
def calculate (operation : String) (x y : ℚ) : Except Err ℚ :=
  if operation = "Addition" then .ok (x + y)
  else if operation = "Subtraction" then .ok (x - y)
  else if operation = "Multiplication" then .ok (x * y)
  else if operation = "Division" then
    if y ≠ 0 then .ok (x / y) else raise_div_zero
  else if operation = "Power" then
    if 0 ≤ y then .ok (floatPow x y) else raise_neg_power
  else if operation = "Root" then
    if 0 ≤ x ∧ y ≠ 0 then .ok (floatPow x (1 / y)) else raise_invalid_root x y
  else if operation = "Modulus" then
    if y ≠ 0 then .ok (decMod x y) else raise_div_zero
  else if operation = "IntegerDivison" then
    if y ≠ 0 then .ok (decIntDiv x y) else raise_div_zero
  else if operation = "Percent" then
    if y ≠ 0 then .ok (x / y * 100) else raise_div_zero
  else if operation = "AbsoluteDifference" then .ok |x - y|
  else .error (.operationError ("Unknown operation: " ++ operation))

/-- The `Calculation` dataclass (app/calculation.py). The `timestamp`
field (a wall-clock `datetime`) is modelled as a natural number of
microseconds since the epoch; `datetime.isoformat` and `fromisoformat`
round-trip it exactly. -/
structure Calculation where
  operation : String
  first_operand : ℚ
  second_operand : ℚ
  result : ℚ
  timestamp : ℕ
deriving DecidableEq

/-- Models the `Calculation` constructor together with `__post_init__`,
which computes `result` from the operation name and the operands (and
propagates any error `calculate` raises). -/
def Calculation.make (operation : String) (a b : ℚ) (ts : ℕ) : Except Err Calculation :=
  match calculate operation a b with
  | .error e => .error e
  | .ok r => .ok ⟨operation, a, b, r, ts⟩

/-- The fields of `CalculatorConfig` (app/calculator_config.py) that the
engine reads: the history cap and the magnitude bound for inputs. -/
structure CalculatorConfig where
  max_history_size : ℕ
  max_input_value : ℚ
deriving DecidableEq

/-- Models `InputValidator.validate_number` (app/input_validators.py):
inputs are modelled as already-parsed decimals, so the remaining checks
are the magnitude bound and `normalize()`, which does not change the
value. Unparseable strings are outside the value model. -/
def validate_number (value : ℚ) (config : CalculatorConfig) : Except Err ℚ :=
  if |value| > config.max_input_value then
    .error (.validationError "Value exceeds maximum allowed")
  else .ok value

/-- Models `CalculatorMemento` (app/calculator_memento.py): a snapshot of
the history list. Its wall-clock `timestamp` field is not modelled; no
behaviour reads it. The `.copy()` calls of the Python code are the
identity here because lists are values in the embedding. -/
structure CalculatorMemento where
  history : List Calculation
deriving DecidableEq

/-- The mutable state of a `Calculator` (app/calculator.py): the live
history, the selected strategy, and the two memento stacks. Python
appends and pops at the end of each stack list; the embedding pushes and
pops at the head, an equivalent stack representation. Observers and the
file-system collaborators are outside the modelled state. -/
structure Calculator where
  history : List Calculation
  operation_strategy : Option Op
  undo_stack : List CalculatorMemento
  redo_stack : List CalculatorMemento
deriving DecidableEq

/-- Models the two `except` clauses of `Calculator.perform_operation`:
`ValidationError` is re-raised unchanged, every other exception is
wrapped as `OperationError("Operation failed: " + str(e))`. -/
def wrapExc : Err → Err
  | .validationError m => .validationError m
  | e => .operationError ("Operation failed: " ++ e.message)

/-- Models `Calculator.perform_operation`: fail fast when no strategy is
set; validate both inputs; run the strategy; build the `Calculation`
record; only then mutate, pushing the pre-change history onto the undo
stack, clearing the redo stack, appending to history and evicting the
oldest entry past the cap. Every failing step returns the state
unchanged, exactly as the Python method raises before its mutations. -/
def perform_operation (config : CalculatorConfig) (ts : ℕ) (s : Calculator)
    (a b : ℚ) : Except Err ℚ × Calculator :=
  match s.operation_strategy with
  | none => (.error (.operationError "No operation set"), s)
  | some strategy =>
    match validate_number a config with
    | .error e => (.error (wrapExc e), s)
    | .ok validated_a =>
      match validate_number b config with
      | .error e => (.error (wrapExc e), s)
      | .ok validated_b =>
        match strategy.execute validated_a validated_b with
        | .error e => (.error (wrapExc e), s)
        | .ok result =>
          match Calculation.make strategy.str validated_a validated_b ts with
          | .error e => (.error (wrapExc e), s)
          | .ok calculation =>
            let history2 := s.history ++ [calculation]
            (.ok result,
             { s with
                undo_stack := ⟨s.history⟩ :: s.undo_stack,
                redo_stack := [],
                history :=
                  if history2.length > config.max_history_size then history2.tail
                  else history2 })

/-- Models `Calculator.undo`: no-op returning false on an empty undo
stack; otherwise pop a snapshot, push the current history onto the redo
stack, install the snapshot, return true. -/
def Calculator.undo (s : Calculator) : Bool × Calculator :=
  match s.undo_stack with
  | [] => (false, s)
  | memento :: rest =>
      (true,
       { s with
          undo_stack := rest,
          redo_stack := ⟨s.history⟩ :: s.redo_stack,
          history := memento.history })

/-- Models `Calculator.redo`, symmetric to `undo`. -/
def Calculator.redo (s : Calculator) : Bool × Calculator :=
  match s.redo_stack with
  | [] => (false, s)
  | memento :: rest =>
      (true,
       { s with
          redo_stack := rest,
          undo_stack := ⟨s.history⟩ :: s.undo_stack,
          history := memento.history })

/-- The dictionary produced by `Calculation.to_dict`: a string-keyed
record with keys operation, first_operand, second_operand, result,
timestamp. `str(Decimal)` round-trips a decimal exactly through the
`Decimal` constructor and `isoformat` round-trips the timestamp, so the
serialised fields are modelled by their values. -/
structure CalcDict where
  operation : String
  first_operand : ℚ
  second_operand : ℚ
  result : ℚ
  timestamp : ℕ
deriving DecidableEq

/-- Models `Calculation.to_dict`. -/
def Calculation.to_dict (c : Calculation) : CalcDict :=
  ⟨c.operation, c.first_operand, c.second_operand, c.result, c.timestamp⟩

/-- Models `Calculation.from_dict`: rebuild the record from operation and
operands (recomputing `result`), overwrite the timestamp from the stored
field, and compare the freshly computed result with the stored one,
only logging a warning on mismatch. The boolean of the returned pair
records whether that warning was logged. Errors raised by the
constructor are `OperationError`s, which the Python `except` clause for
`KeyError`/`InvalidOperation`/`ValueError` does not catch, so they
propagate unchanged. -/
def Calculation.from_dict (data : CalcDict) : Except Err (Calculation × Bool) :=
  match Calculation.make data.operation data.first_operand data.second_operand data.timestamp with
  | .error e => .error e
  | .ok rebuilt => .ok (rebuilt, decide (rebuilt.result ≠ data.result))

/-- Models a Python class argument to `OperationFactory.register_operation`:
either one of the ten `Operation` subclasses, or any class that does not
inherit from `Operation` (the `issubclass` check distinguishes exactly
these two cases). -/
inductive OperationClass where
  | opClass (op : Op)
  | otherClass (tag : String)
deriving DecidableEq

/-- Models an entry-ordered Python dict from names to operation classes:
an association list in insertion order. An `Operation` subclass is
identified with its `Op` tag (the classes are stateless, so a fresh
instance of a class is the tag itself). -/
abbrev OpDict := List (String × Op)

/-- Models Python dict assignment `d[k] = v`: an existing key keeps its
position in insertion order, a new key is appended at the end. -/
def dictInsert (d : OpDict) (k : String) (v : Op) : OpDict :=
  match d with
  | [] => [(k, v)]
  | (k0, v0) :: rest =>
      if k0 = k then (k, v) :: rest else (k0, v0) :: dictInsert rest k v

/-- Models Python `d.get(k)`. -/
def dictGet (d : OpDict) (k : String) : Option Op :=
  match d with
  | [] => none
  | (k0, v0) :: rest => if k0 = k then some v0 else dictGet rest k

/-- Models `OperationFactory._operations`: the ten built-ins in their
registration order. -/
def default_operations : OpDict :=
  [("add", .addition), ("subtract", .subtraction), ("multiply", .multiplication),
   ("divide", .division), ("power", .power), ("root", .root), ("modulus", .modulus),
   ("int_divide", .intDivide), ("percent", .percent), ("abs_diff", .absoluteDifference)]

/-- Models Python `str.lower` on the ASCII operation names. -/
def pyLower (s : String) : String := String.mk (s.data.map Char.toLower)

/-- Models `OperationFactory.register_operation`: reject classes that do
not inherit from `Operation` with a `TypeError`, otherwise bind the
lowercased name. -/
def register_operation (ops : OpDict) (name : String) (operation_class : OperationClass) :
    Except Err OpDict :=
  match operation_class with
  | .otherClass _ => .error (.typeError "Operation class must inherit from Operation")
  | .opClass op => .ok (dictInsert ops (pyLower name) op)

/-- Models `OperationFactory.create_operation`: look up the lowercased
name and instantiate the class, or raise `ValueError` for an unknown
name. -/
def create_operation (ops : OpDict) (operation_type : String) : Except Err Op :=
  match dictGet ops (pyLower operation_type) with
  | some operation_class => .ok operation_class
  | none => .error (.valueError ("Unknown operation: " ++ operation_type))

/-- Models `OperationFactory.get_operations`: the registered names in
insertion order. -/
def get_operations (ops : OpDict) : List String := ops.map Prod.fst

/-- Round a rational to the nearest integer, ties to even: the default
`ROUND_HALF_EVEN` rounding of the `decimal` module. -/
def roundHalfEven (q : ℚ) : ℤ :=
  let f := ⌊q⌋
  let frac := q - f
  if frac < 1 / 2 then f
  else if 1 / 2 < frac then f + 1
  else if Even f then f else f + 1

/-- Number of decimal digits of a natural number (one digit for zero). -/
def digitCount (n : ℕ) : ℕ := (Nat.toDigits 10 n).length

/-- A concrete (coefficient, exponent) decimal representation: the value
`coeff * 10 ^ exp`, as carried by a Python `Decimal`. -/
structure DecRepr where
  coeff : ℤ
  exp : ℤ
deriving DecidableEq

/-- Exponent of the quantum `Decimal('0.' + '0' * precision)` built by
`format_result`: for a nonpositive precision the repetition `'0' *
precision` is the empty string, so the quantum is `Decimal('0.')` with
exponent 0; for a positive precision the exponent is `-precision`. -/
def quantumExponent (precision : ℤ) : ℤ := -(max precision 0)

/-- Models `Decimal.quantize(q, 10^e)` under `ROUND_HALF_EVEN`: rescale
to exponent `e`, failing with `decimal.InvalidOperation` when the
resulting coefficient would exceed the context's 28 significant digits. -/
def decQuantize (q : ℚ) (e : ℤ) : Except Err DecRepr :=
  let n := roundHalfEven (q * (10 : ℚ) ^ (-e))
  if digitCount n.natAbs ≤ 28 then .ok ⟨n, e⟩
  else .error (.invalidOperation "quantize result has too many digits for current context")

/-- Strip factors of ten from a coefficient into the exponent (fuel-
bounded; 40 steps cover any 28-digit coefficient). -/
def stripTrailingZeros : ℕ → ℤ → ℤ → DecRepr
  | 0, c, e => ⟨c, e⟩
  | fuel + 1, c, e =>
      if c ≠ 0 ∧ c % 10 = 0 then stripTrailingZeros fuel (c / 10) (e + 1) else ⟨c, e⟩

/-- Models `Decimal.normalize()` on the representation: reduce to the
simplest form by stripping trailing zeros (zero normalises to exponent
0). The context-precision rounding of `normalize` is a no-op for the
in-range values considered here. -/
def DecRepr.normalize (d : DecRepr) : DecRepr :=
  if d.coeff = 0 then ⟨0, 0⟩ else stripTrailingZeros 40 d.coeff d.exp

/-- Models `str(Decimal)`, the to-scientific-string conversion of the
General Decimal Arithmetic specification restricted to finite values:
plain positional form while the exponent is nonpositive and the
adjusted exponent is at least -6, exponent form otherwise. -/
def DecRepr.toStr (d : DecRepr) : String :=
  let sign := if d.coeff < 0 then "-" else ""
  let digits := toString d.coeff.natAbs
  let ndig : ℤ := (digitCount d.coeff.natAbs : ℤ)
  let adjusted := d.exp + ndig - 1
  if d.exp ≤ 0 ∧ -6 ≤ adjusted then
    if d.exp = 0 then sign ++ digits
    else if 0 ≤ adjusted then
      sign ++ digits.take (adjusted + 1).toNat ++ "." ++ digits.drop (adjusted + 1).toNat
    else
      sign ++ "0." ++ String.mk (List.replicate (-(adjusted + 1)).toNat (Char.ofNat 48)) ++ digits
  else
    let head := digits.take 1
    let tail := digits.drop 1
    sign ++ head ++ (if tail.isEmpty then "" else "." ++ tail) ++ "E" ++
      (if 0 ≤ adjusted then "+" else "") ++ toString adjusted

/-- Search for the least `k` such that `q * 10 ^ k` is an integer, to
recover a (coefficient, exponent) representation from a value. -/
def ratExpSearch : ℕ → ℚ → ℕ → Option DecRepr
  | 0, _, _ => none
  | fuel + 1, q, k =>
      if (q * (10 : ℚ) ^ (k : ℤ)).den = 1 then some ⟨(q * (10 : ℚ) ^ (k : ℤ)).num, -(k : ℤ)⟩
      else ratExpSearch fuel q (k + 1)

/-- Models `str(self.result)` in the fallback branch of `format_result`:
render the value in its minimal-exponent decimal representation. A
value whose denominator is not a power of ten is not a `Decimal` value
and is rendered as a plain rational (unreachable from modelled code). -/
def decimalStr (q : ℚ) : String :=
  match ratExpSearch 60 q 0 with
  | some d => d.toStr
  | none => toString q.num ++ "/" ++ toString q.den

/-- Models `Calculation.format_result` (app/calculation.py): the literal
"IntegerDivision" operation name truncates to an integer string;
otherwise the result is normalised, quantised to `Decimal('0.' + '0' *
precision)` and normalised again, and a `decimal.InvalidOperation`
during that formatting falls back to the unformatted `str(self.result)`.
The precision parameter is typed `ℤ`: passing a non-integer Python value
is outside the typed embedding (it raises a `TypeError` from `'0' *
precision` before any `decimal` call). -/
def Calculation.format_result (c : Calculation) (precision : ℤ) : Except Err String :=
  if c.operation = "IntegerDivision" then .ok (toString (decTrunc c.result))
  else
    match decQuantize c.result (quantumExponent precision) with
    | .ok q => .ok q.normalize.toStr
    | .error _ => .ok (decimalStr c.result)

theorem perform_operation_fst_error (config : CalculatorConfig) (ts : ℕ)
    (s : Calculator) (a b : ℚ) (e : Err)
    (h : (perform_operation config ts s a b).1 = .error e) :
    (perform_operation config ts s a b).2 = s := by
  rcases hs : s.operation_strategy with _ | strat <;>
    simp only [perform_operation, hs] at h ⊢
  rcases hva : validate_number a config with e1 | va <;> simp only [hva] at h ⊢
  rcases hvb : validate_number b config with e2 | vb <;> simp only [hvb] at h ⊢
  rcases hex : strat.execute va vb with e3 | r <;> simp only [hex] at h ⊢
  rcases hmk : Calculation.make strat.str va vb ts with e4 | c <;>
    simp only [hmk] at h ⊢
  exact absurd h (by simp)

theorem perform_operation_ok_stacks (config : CalculatorConfig) (ts : ℕ)
    (s : Calculator) (a b r : ℚ) (s2 : Calculator)
    (h : perform_operation config ts s a b = (.ok r, s2)) :
    s2.undo_stack = ⟨s.history⟩ :: s.undo_stack ∧ s2.redo_stack = []
      ∧ s2.operation_strategy = s.operation_strategy := by
  rcases hs : s.operation_strategy with _ | strat <;>
    simp only [perform_operation, hs] at h
  · simp at h
  rcases hva : validate_number a config with e1 | va <;> simp only [hva] at h
  · simp at h
  rcases hvb : validate_number b config with e2 | vb <;> simp only [hvb] at h
  · simp at h
  rcases hex : strat.execute va vb with e3 | r2 <;> simp only [hex] at h
  · simp at h
  rcases hmk : Calculation.make strat.str va vb ts with e4 | c <;>
    simp only [hmk] at h
  · simp at h
  obtain ⟨h1, h2⟩ := Prod.mk.injEq .. ▸ h
  subst h2
  simp [hs]

/-- C1: a failing `perform_operation` call (no strategy set, input
validation failure, or operation/record-construction failure) returns
the calculator state exactly as it was, and with no strategy set it
fails with the `OperationError` "No operation set". -/
theorem perform_operation_error_preserves_state (config : CalculatorConfig)
    (ts : ℕ) (s : Calculator) (a b : ℚ) :
    (∀ e, (perform_operation config ts s a b).1 = .error e →
        (perform_operation config ts s a b).2 = s)
  ∧ (s.operation_strategy = none →
        perform_operation config ts s a b =
          (.error (.operationError "No operation set"), s)) := by
  constructor
  · exact fun e h => perform_operation_fst_error config ts s a b e h
  · intro hs
    simp [perform_operation, hs]

theorem perform_operation_error_preserves_state_witness :
    perform_operation ⟨10, 1000⟩ 0 ⟨[], none, [], []⟩ 1 2 =
      (.error (.operationError "No operation set"), ⟨[], none, [], []⟩) :=
  (perform_operation_error_preserves_state ⟨10, 1000⟩ 0 ⟨[], none, [], []⟩ 1 2).2 rfl

/-- C2: after one successful `perform_operation`, `undo` returns true and
restores the pre-operation history; `redo` right after that undo returns
true and restores the post-operation history; and a new successful
operation performed after the undo clears the redo stack, so `redo`
returns false afterward. -/
theorem undo_redo_after_operation (config : CalculatorConfig) (ts ts2 : ℕ)
    (s : Calculator) (a b r : ℚ) (s1 : Calculator)
    (h : perform_operation config ts s a b = (.ok r, s1)) :
    s1.undo.1 = true
  ∧ s1.undo.2.history = s.history
  ∧ s1.undo.2.redo.1 = true
  ∧ s1.undo.2.redo.2.history = s1.history
  ∧ (∀ a2 b2 r2 s4, perform_operation config ts2 s1.undo.2 a2 b2 = (.ok r2, s4) →
        s4.redo = (false, s4)) := by
  obtain ⟨hu, hr, _⟩ := perform_operation_ok_stacks config ts s a b r s1 h
  have hundo : s1.undo =
      (true,
        { history := s.history, operation_strategy := s1.operation_strategy,
          undo_stack := s.undo_stack,
          redo_stack := CalculatorMemento.mk s1.history :: s1.redo_stack }) := by
    simp only [Calculator.undo, hu]
  refine ⟨by rw [hundo], by rw [hundo], by rw [hundo]; simp [Calculator.redo],
    by rw [hundo]; simp [Calculator.redo], ?_⟩
  intro a2 b2 r2 s4 h4
  obtain ⟨_, hr4, _⟩ := perform_operation_ok_stacks config ts2 _ a2 b2 r2 s4 h4
  simp only [Calculator.redo, hr4]

theorem undo_redo_after_operation_witness :
    (Calculator.undo ⟨[⟨"Addition", 1, 2, 3, 0⟩], some .addition, [⟨[]⟩], []⟩).1 = true
  ∧ (Calculator.undo ⟨[⟨"Addition", 1, 2, 3, 0⟩], some .addition, [⟨[]⟩], []⟩).2.history
      = ([] : List Calculation) := by
  have h : perform_operation ⟨10, 1000⟩ 0 ⟨[], some .addition, [], []⟩ 1 2 =
      (.ok 3, ⟨[⟨"Addition", 1, 2, 3, 0⟩], some .addition, [⟨[]⟩], []⟩) := by
    norm_num [perform_operation, validate_number, Op.execute, Op.validate_operands,
      Calculation.make, calculate, Op.str]
  exact ⟨(undo_redo_after_operation ⟨10, 1000⟩ 0 0 _ 1 2 3 _ h).1,
         (undo_redo_after_operation ⟨10, 1000⟩ 0 0 _ 1 2 3 _ h).2.1⟩

/-- C4: with the built-in `IntDivide` strategy selected and operands that
pass input validation and the strategy's own check, `perform_operation`
always fails: the display name "IntDivide" is not a key of
`Calculation.calculate`'s table (whose entry is spelled
"IntegerDivison"), so building the record raises, the error is wrapped
as an `OperationError`, and the state (history included) is unchanged. -/
theorem int_divide_strategy_always_fails (config : CalculatorConfig) (ts : ℕ)
    (s : Calculator) (a b : ℚ)
    (hstrat : s.operation_strategy = some .intDivide)
    (hb : b ≠ 0)
    (ha : |a| ≤ config.max_input_value)
    (hb2 : |b| ≤ config.max_input_value) :
    perform_operation config ts s a b =
      (.error (.operationError "Operation failed: Unknown operation: IntDivide"), s) := by
  have hva : validate_number a config = .ok a := by
    rw [validate_number, if_neg (not_lt.mpr ha)]
  have hvb : validate_number b config = .ok b := by
    rw [validate_number, if_neg (not_lt.mpr hb2)]
  have hex : Op.execute .intDivide a b = .ok (decIntDiv a b) := by
    simp [Op.execute, Op.validate_operands, hb]
  have hmk : Calculation.make (Op.str .intDivide) a b ts =
      .error (.operationError "Unknown operation: IntDivide") := by
    simp [Calculation.make, Op.str, calculate]
  simp only [perform_operation, hstrat, hva, hvb, hex, hmk]
  rfl

theorem int_divide_strategy_always_fails_witness :
    perform_operation ⟨10, 1000⟩ 0 ⟨[], some .intDivide, [], []⟩ 10 3 =
      (.error (.operationError "Operation failed: Unknown operation: IntDivide"),
       ⟨[], some .intDivide, [], []⟩) :=
  int_divide_strategy_always_fails ⟨10, 1000⟩ 0 ⟨[], some .intDivide, [], []⟩ 10 3
    rfl (by norm_num) (by norm_num) (by norm_num)

/-- C5: the strategies' operand validation, exactly: Division, Modulus,
IntDivide and Percent fail with their division-by-zero `ValidationError`
exactly when the second operand is zero; Power fails exactly for a
negative exponent; Root fails for a negative base or a zero degree; and
in every other case each operation returns normally. -/
theorem operation_validation_rules (a b : ℚ) :
    (b = 0 → Op.execute .division a b =
        .error (.validationError "Division by zero is not allowed"))
  ∧ (b ≠ 0 → Op.execute .division a b = .ok (a / b))
  ∧ (b = 0 → Op.execute .modulus a b =
        .error (.validationError "Modulus by zero is not allowed"))
  ∧ (b ≠ 0 → Op.execute .modulus a b = .ok (decMod a b))
  ∧ (b = 0 → Op.execute .intDivide a b =
        .error (.validationError "Divide by zero is not allowed"))
  ∧ (b ≠ 0 → Op.execute .intDivide a b = .ok (decIntDiv a b))
  ∧ (b = 0 → Op.execute .percent a b =
        .error (.validationError "Divide by zero is not allowed"))
  ∧ (b ≠ 0 → Op.execute .percent a b = .ok (a / b * 100))
  ∧ (b < 0 → Op.execute .power a b =
        .error (.validationError "Negative exponents not supported"))
  ∧ (0 ≤ b → Op.execute .power a b = .ok (floatPow a b))
  ∧ (a < 0 → Op.execute .root a b =
        .error (.validationError "Cannot calculate root of negative number"))
  ∧ (0 ≤ a → b = 0 → Op.execute .root a b =
        .error (.validationError "Zero root is undefined"))
  ∧ (0 ≤ a → b ≠ 0 → Op.execute .root a b = .ok (floatPow a (1 / b))) := by
  refine ⟨?_, ?_, ?_, ?_, ?_, ?_, ?_, ?_, ?_, ?_, ?_, ?_, ?_⟩ <;>
    intro h <;>
    simp [Op.execute, Op.validate_operands, h, not_lt.mpr, not_lt_of_lt]
  · intro h2
    simp [not_lt.mpr h, h2]
  · intro h2
    simp [not_lt.mpr h, h2]

theorem operation_validation_rules_witness :
    Op.execute .division 1 0 = .error (.validationError "Division by zero is not allowed")
  ∧ Op.execute .division 1 2 = .ok (1 / 2)
  ∧ Op.execute .power 2 (-3) = .error (.validationError "Negative exponents not supported")
  ∧ Op.execute .root (-4) 2 =
      .error (.validationError "Cannot calculate root of negative number")
  ∧ Op.execute .root 4 0 = .error (.validationError "Zero root is undefined") :=
  ⟨(operation_validation_rules 1 0).1 rfl,
   (operation_validation_rules 1 2).2.1 (by norm_num),
   (operation_validation_rules 2 (-3)).2.2.2.2.2.2.2.2.1 (by norm_num),
   (operation_validation_rules (-4) 2).2.2.2.2.2.2.2.2.2.2.1 (by norm_num),
   (operation_validation_rules 4 0).2.2.2.2.2.2.2.2.2.2.2.1 (by norm_num) rfl⟩

/-- C3 counterexample: at a = -7, b = 2 the `IntDivide` strategy returns
-3, the truncation toward zero, while the mathematical floor of the true
quotient is -4, so `execute` does not return floor(a / b) when the signs
differ. -/
theorem int_divide_not_floor :
    Op.execute .intDivide (-7) 2 = .ok (-3)
  ∧ (⌊((-7 : ℚ)) / 2⌋ : ℤ) = -4
  ∧ Op.execute .intDivide (-7) 2 ≠ .ok ((⌊((-7 : ℚ)) / 2⌋ : ℤ) : ℚ) := by
  have hf : (⌊((-7 : ℚ)) / 2⌋ : ℤ) = -4 := by norm_num
  have h : decTrunc (-((7 : ℚ) / 2)) = -3 := by
    rw [decTrunc, if_neg (by norm_num), Int.ceil_neg]
    norm_num
  have hex : Op.execute .intDivide (-7) 2 = .ok (-3) := by
    norm_num [Op.execute, Op.validate_operands, decIntDiv, h]
  refine ⟨hex, hf, ?_⟩
  rw [hex, hf]
  norm_num

/-- C3 (amended): for b ≠ 0, `IntDivide.execute` returns the true
quotient truncated toward zero (the `decimal` module's `//`), which
agrees with floor(a / b) exactly when the quotient is nonnegative. -/
theorem int_divide_truncates (a b : ℚ) (hb : b ≠ 0) :
    Op.execute .intDivide a b = .ok (decIntDiv a b)
  ∧ (0 ≤ a / b → decIntDiv a b = ((⌊a / b⌋ : ℤ) : ℚ)) := by
  constructor
  · simp [Op.execute, Op.validate_operands, hb]
  · intro h
    simp [decIntDiv, decTrunc, if_pos h]

theorem int_divide_truncates_witness :
    Op.execute .intDivide (-7) 2 = .ok (decIntDiv (-7) 2)
  ∧ decIntDiv 7 2 = ((⌊(7 : ℚ) / 2⌋ : ℤ) : ℚ) :=
  ⟨(int_divide_truncates (-7) 2 (by norm_num)).1,
   (int_divide_truncates 7 2 (by norm_num)).2 (by norm_num)⟩

/-- C9: when a Root calculation is built through the `Calculation`
record's error-raising path with both operands invalid (base < 0 and
degree = 0), the zero-root check wins and the error carries the
zero-root message, while the strategy-side `Root.validate_operands`
checks the negative base first. -/
theorem root_error_priority (a b : ℚ) (ha : a < 0) (hb : b = 0) :
    (∀ ts, Calculation.make "Root" a b ts =
        .error (.operationError "Zero root is undefined"))
  ∧ calculate "Root" a b = .error (.operationError "Zero root is undefined")
  ∧ Op.validate_operands .root a b =
      .error (.validationError "Cannot calculate root of negative number") := by
  have hc : calculate "Root" a b = .error (.operationError "Zero root is undefined") := by
    have hcond : ¬(0 ≤ a ∧ b ≠ 0) := by
      rintro ⟨h1, _⟩
      exact absurd ha (not_lt.mpr h1)
    simp [calculate, hcond, raise_invalid_root, hb]
  exact ⟨fun ts => by simp [Calculation.make, hc], hc,
    by simp [Op.validate_operands, ha]⟩

theorem root_error_priority_witness :
    Calculation.make "Root" (-1) 0 5 =
      .error (.operationError "Zero root is undefined")
  ∧ Op.validate_operands .root (-1) 0 =
      .error (.validationError "Cannot calculate root of negative number") :=
  ⟨(root_error_priority (-1) 0 (by norm_num) rfl).1 5,
   (root_error_priority (-1) 0 (by norm_num) rfl).2.2⟩

/-- C10: `AbsoluteDifference.execute` is commutative and computes the
absolute difference |a - b|, both through the strategy and through the
record's calculate table. -/
theorem absolute_difference_commutative (a b : ℚ) :
    Op.execute .absoluteDifference a b = Op.execute .absoluteDifference b a
  ∧ Op.execute .absoluteDifference a b = .ok |a - b|
  ∧ calculate "AbsoluteDifference" a b = calculate "AbsoluteDifference" b a := by
  refine ⟨?_, by simp [Op.execute, Op.validate_operands], ?_⟩ <;>
    simp [Op.execute, Op.validate_operands, calculate, abs_sub_comm]

/-- C6: evaluation at the failing input: `format_result` with the
negative precision -1 does not raise at all — `'0' * -1` is the empty
string, so the quantum is `Decimal('0.')` and the result is quantised to
an integer string. The repo's own tests (`test_format_result_negative_precision`,
`test_format_invalid_operation`) and the spec require an invalid-precision
error here instead. -/
theorem format_result_negative_precision_no_error :
    Calculation.format_result ⟨"Addition", 1, 2, 3, 0⟩ (-1) = .ok "3" := by
  have h1 : quantumExponent (-1) = 0 := by norm_num [quantumExponent]
  have h2 : roundHalfEven ((3 : ℚ) * 10 ^ (-(0 : ℤ))) = 3 := by
    norm_num [roundHalfEven]
  rw [Calculation.format_result, if_neg (by simp), h1, decQuantize]
  simp only [Int.natAbs_ofNat, h2]
  rw [if_pos (by decide)]
  rfl

/-- C7: serialising a successfully constructed `Calculation` with
`to_dict` and reading it back with `from_dict` reproduces the record
exactly — operation, both operands, result and timestamp — with no
mismatch warning; and `from_dict` always recomputes the result from
operation and operands, returns the freshly computed result, and merely
flags (warns about) a stored result that differs, never failing for the
mismatch. -/
theorem to_dict_from_dict_round_trip (op : String) (a b : ℚ) (ts : ℕ)
    (c : Calculation) (h : Calculation.make op a b ts = .ok c) :
    Calculation.from_dict c.to_dict = .ok (c, false)
  ∧ (∀ d c2 w, Calculation.from_dict d = .ok (c2, w) →
      calculate d.operation d.first_operand d.second_operand = .ok c2.result
      ∧ c2.operation = d.operation
      ∧ c2.first_operand = d.first_operand
      ∧ c2.second_operand = d.second_operand
      ∧ c2.timestamp = d.timestamp
      ∧ w = decide (c2.result ≠ d.result)) := by
  constructor
  · rcases hr : calculate op a b with e | r
    · rw [Calculation.make, hr] at h
      exact absurd h (by simp)
    · rw [Calculation.make, hr] at h
      obtain rfl : (⟨op, a, b, r, ts⟩ : Calculation) = c := by
        simpa using h
      simp [Calculation.from_dict, Calculation.to_dict, Calculation.make, hr]
  · intro d c2 w h2
    rcases hm : Calculation.make d.operation d.first_operand d.second_operand d.timestamp
      with e | rebuilt
    · rw [Calculation.from_dict, hm] at h2
      exact absurd h2 (by simp)
    · rw [Calculation.from_dict, hm] at h2
      obtain ⟨rfl, rfl⟩ : rebuilt = c2 ∧ decide (rebuilt.result ≠ d.result) = w := by
        simpa using h2
      rcases hr2 : calculate d.operation d.first_operand d.second_operand with e2 | r2
      · rw [Calculation.make, hr2] at hm
        exact absurd hm (by simp)
      · rw [Calculation.make, hr2] at hm
        obtain rfl : (⟨d.operation, d.first_operand, d.second_operand, r2, d.timestamp⟩ :
            Calculation) = rebuilt := by simpa using hm
        exact ⟨by simp [hr2], rfl, rfl, rfl, rfl, rfl⟩

theorem to_dict_from_dict_round_trip_witness :
    Calculation.from_dict (Calculation.to_dict ⟨"Addition", 1, 2, 3, 5⟩) =
      .ok (⟨"Addition", 1, 2, 3, 5⟩, false) :=
  (to_dict_from_dict_round_trip "Addition" 1 2 5 ⟨"Addition", 1, 2, 3, 5⟩
    (by norm_num [Calculation.make, calculate])).1

theorem dictGet_dictInsert_self (d : OpDict) (k : String) (v : Op) :
    dictGet (dictInsert d k v) k = some v := by
  induction d with
  | nil => simp [dictInsert, dictGet]
  | cons hd tl ih =>
    obtain ⟨k0, v0⟩ := hd
    by_cases hk : k0 = k
    · simp [dictInsert, dictGet, hk]
    · simp [dictInsert, dictGet, hk, ih]

theorem dictGet_dictInsert_other (d : OpDict) (k : String) (v : Op) (k2 : String)
    (h : k2 ≠ k) : dictGet (dictInsert d k v) k2 = dictGet d k2 := by
  have h2 : ¬k = k2 := fun hh => h hh.symm
  induction d with
  | nil => simp [dictInsert, dictGet, h2]
  | cons hd tl ih =>
    obtain ⟨k0, v0⟩ := hd
    by_cases hk : k0 = k
    · subst hk
      simp [dictInsert, dictGet, h2]
    · by_cases hk2 : k0 = k2
      · subst hk2
        simp [dictInsert, dictGet, hk]
      · simp [dictInsert, dictGet, hk, hk2, ih]

theorem keys_dictInsert (d : OpDict) (k : String) (v : Op) :
    get_operations (dictInsert d k v) =
      if k ∈ get_operations d then get_operations d
      else get_operations d ++ [k] := by
  induction d with
  | nil => simp [dictInsert, get_operations]
  | cons hd tl ih =>
    obtain ⟨k0, v0⟩ := hd
    by_cases hk : k0 = k
    · subst hk
      simp [dictInsert, get_operations]
    · rw [show dictInsert ((k0, v0) :: tl) k v = (k0, v0) :: dictInsert tl k v by
        simp [dictInsert, hk]]
      simp only [get_operations, List.map_cons] at ih ⊢
      rw [ih]
      by_cases hmem : k ∈ List.map Prod.fst tl
      · simp [hmem, Ne.symm hk]
      · simp [hmem, Ne.symm hk]

/-- C8: the factory contract: registering a class that does not inherit
from `Operation` fails with a `TypeError`; registering an operation
class binds the lowercased name, overwriting any existing binding while
leaving every other name's behaviour unchanged, and appends the name to
the listing exactly when it was not yet registered; creating an
unregistered name fails with the unknown-operation `ValueError`, and
creating a registered name yields the instance of the registered class;
and the default listing is the ten built-ins in registration order. -/
theorem operation_factory_contract :
    (∀ ops name tag, register_operation ops name (.otherClass tag) =
        .error (.typeError "Operation class must inherit from Operation"))
  ∧ (∀ ops name op ops2, register_operation ops name (.opClass op) = .ok ops2 →
        create_operation ops2 name = .ok op
      ∧ (∀ other, pyLower other ≠ pyLower name →
            create_operation ops2 other = create_operation ops other)
      ∧ get_operations ops2 =
          (if pyLower name ∈ get_operations ops then get_operations ops
           else get_operations ops ++ [pyLower name]))
  ∧ (∀ ops name, dictGet ops (pyLower name) = none →
        create_operation ops name =
          .error (.valueError ("Unknown operation: " ++ name)))
  ∧ get_operations default_operations =
      ["add", "subtract", "multiply", "divide", "power", "root", "modulus",
       "int_divide", "percent", "abs_diff"] := by
  refine ⟨fun ops name tag => rfl, ?_, ?_, rfl⟩
  · intro ops name op ops2 h
    obtain rfl : dictInsert ops (pyLower name) op = ops2 := by
      simpa [register_operation] using h
    refine ⟨?_, ?_, keys_dictInsert ops (pyLower name) op⟩
    · simp [create_operation, dictGet_dictInsert_self]
    · intro other hother
      simp [create_operation, dictGet_dictInsert_other _ _ _ _ hother]
  · intro ops name h
    simp [create_operation, h]

theorem operation_factory_contract_witness :
    create_operation default_operations "frobnicate" =
      .error (.valueError "Unknown operation: frobnicate")
  ∧ create_operation (dictInsert default_operations (pyLower "Add") .subtraction) "Add" =
      .ok .subtraction :=
  ⟨operation_factory_contract.2.2.1 default_operations "frobnicate" rfl,
   (operation_factory_contract.2.1 default_operations "Add" .subtraction
      (dictInsert default_operations (pyLower "Add") .subtraction) rfl).1⟩
